import Mathlib

/-!
Shallow embedding of the authentication core of the tado-exporter repository
(src/tado/client.rs and src/tado/error.rs), covering:

* `set_tokens`         — token storage and refresh-deadline computation,
* `refresh_authentication` — lazy refresh of the access token,
* `wait_for_tokens`    — the device-grant token-polling loop,
* `approve_device`     — the browser-approval simulator (the part after the
  device-session POST: `Location` inspection and query-parameter extraction).

Modelling conventions:

* `Instant` is modelled as `Nat` seconds.  `Instant::now()` is an explicit
  parameter; inside the polling loop the clock advances only at the
  deliberate `tokio::time::sleep(interval)` calls, by exactly `interval`.
* The HTTP transport and the serde/url external libraries are collaborators:
  each network exchange is an input describing the response the code
  observed, with the results of the external JSON / header / URL parsing
  recorded as `Option` fields (`none` = the external parse failed, which the
  Rust code surfaces through `?` as an `AuthError`).
* `u64` arithmetic that can only panic (the `tokens.expires_in - 10`
  underflow) is modelled by an `Option` result, `none` standing for the
  panic.
* Each modelled operation also returns the list of HTTP requests it issued
  (with their form parameters) and, for the poller, the sleeps it performed,
  so that claims about "no further request" or "sleeps exactly interval"
  are statements about that trace.
-/

set_option autoImplicit false

namespace Tado

/-- Modelled from the spec: `AuthTokensResponse` is defined in
src/tado/model.rs, which is not among the sources; the spec's `TokenPair`
gives the fields `access_token` (string), `refresh_token` (string) and
`expires_in` (seconds).  client.rs passes `expires_in` (minus 10) directly
to `Duration::from_secs`, so it is an unsigned 64-bit count of seconds,
modelled as `Nat`. -/
structure AuthTokensResponse where
  access_token : String
  expires_in : Nat
  refresh_token : String
deriving Repr, DecidableEq

/-- Modelled from the spec: `AuthTokensErrorResponse` is defined in
src/tado/model.rs, which is not among the sources; per the spec the token
endpoint's 400 body carries the provider's error code string (e.g.
"authorization_pending"), read by client.rs as `failure.error`. -/
structure AuthTokensErrorResponse where
  error : String
deriving Repr, DecidableEq

/-- Modelled from the spec: `AuthStartResponse` is defined in
src/tado/model.rs, which is not among the sources; the spec's
`DeviceGrantSession` gives `user_code`, `device_code`,
`verification_uri_complete`, `expires_in` (seconds) and `interval`
(seconds).  client.rs passes `expires_in` and `interval` to
`Duration::from_secs`, so both are unsigned seconds, modelled as `Nat`. -/
structure AuthStartResponse where
  device_code : String
  user_code : String
  verification_uri_complete : String
  expires_in : Nat
  interval : Nat
deriving Repr, DecidableEq

/-- src/tado/client.rs line 15: `AUTH_PENDING_MESSAGE`. -/
def AUTH_PENDING_MESSAGE : String := "authorization_pending"

/-- Provenance of a `reqwest::Error` wrapped into `AuthError::Http`:
a failed `send()`, a failed `json()`/`text()` body decode, or the error
produced by `error_for_status` for a 4xx/5xx status (which records the
status and the response URL). -/
inductive HttpErrorKind where
  | transport
  | decode
  | status (code : Nat) (url : String)
deriving Repr, DecidableEq

/-- src/tado/error.rs: the `AuthError` enum. -/
inductive AuthError where
  | Http (e : HttpErrorKind)
  | HttpHeader
  | MissingParam (name : String)
  | Timeout
  | UnexpectedStatus (status : Nat) (url : String)
  | UrlParse
deriving Repr, DecidableEq

/-- `reqwest::Response::error_for_status` errors exactly for client-error
(400-499) and server-error (500-599) statuses. -/
def is_error_status (status : Nat) : Bool :=
  400 ≤ status && status ≤ 599

/-- src/tado/client.rs lines 25-37: the `Client` struct.  The
`http_client` handle carries no observable state and is dropped; `Instant`
fields are `Nat` seconds. -/
structure Client where
  base_url : String
  username : String
  password : String
  client_id : String
  tokens : AuthTokensResponse
  tokens_refresh_by : Nat
  home_id : Int
deriving Repr, DecidableEq

/-- src/tado/client.rs lines 48-68: `Client::with_base_url`;
`Instant::now()` is the explicit `now` parameter. -/
def with_base_url (base_url username password client_id : String) (now : Nat) : Client :=
  { base_url := base_url
    username := username
    password := password
    client_id := client_id
    tokens := { access_token := "", expires_in := 0, refresh_token := "" }
    tokens_refresh_by := now
    home_id := 0 }

/-- src/tado/client.rs lines 336-341: `Client::set_tokens`.  The source
computes `let expires_in = tokens.expires_in - 10;` on `u64`: when
`tokens.expires_in < 10` this subtraction underflows, so the deadline
computation panics (overflow-checked subtraction in debug builds; in
release builds the wrapped value makes the subsequent
`Instant::now() + Duration::from_secs(expires_in)` overflow and panic).
The panic is modelled as `none`.  Otherwise the token pair is stored and
`tokens_refresh_by` is recomputed as `now + (expires_in - 10)`. -/
def set_tokens (st : Client) (now : Nat) (tokens : AuthTokensResponse) : Option Client :=
  if tokens.expires_in < 10 then
    none
  else
    some { st with
            tokens := tokens
            tokens_refresh_by := now + (tokens.expires_in - 10) }

/-- A response from the token endpoint as observed by the code: HTTP
status, response URL, and the results of the two external JSON decodes the
code may attempt on the body (`json::<AuthTokensResponse>` for 200 /
refresh, `json::<AuthTokensErrorResponse>` for 400); `none` means the
decode fails. -/
structure TokenResponse where
  status : Nat
  url : String
  tokens : Option AuthTokensResponse
  errorBody : Option AuthTokensErrorResponse
deriving Repr, DecidableEq

/-- One observable action of a modelled operation: a form-encoded POST
with its parameters, or a `tokio::time::sleep` of `secs` seconds. -/
inductive PollEvent where
  | request (params : List (String × String))
  | sleep (secs : Nat)
deriving Repr, DecidableEq

/-- Number of HTTP requests in a trace. -/
def requestCount (evs : List PollEvent) : Nat :=
  evs.countP fun e =>
    match e with
    | .request _ => true
    | .sleep _ => false

/-- Outcome of a modelled stateful operation: success or an `AuthError`,
together with the resulting `Client` state; `panicked` models a Rust
panic (the `set_tokens` underflow); `noResponse` means the scripted list
of responses ran out while the code would have sent another request (a
limit of the finite script, not a behaviour of the code). -/
inductive PollOutcome where
  | ok (st : Client)
  | err (e : AuthError) (st : Client)
  | panicked (st : Client)
  | noResponse (st : Client)
deriving Repr, DecidableEq

/-- src/tado/client.rs lines 345-349: the form parameters of each token
poll request. -/
def token_params (st : Client) (start : AuthStartResponse) : List (String × String) :=
  [("client_id", st.client_id),
   ("device_code", start.device_code),
   ("grant_type", "urn:ietf:params:oauth:grant-type:device_code")]

/-- src/tado/client.rs lines 350-383: the `while` loop of
`wait_for_tokens`.  `must_complete_by` is the deadline computed once
before the loop; `now` is the current clock; `responses` scripts the
successful sends, in order.  Per iteration: if `now` has reached the
deadline the loop exits and returns `Err(Timeout)`; otherwise one request
is issued and the response handled: 200 → decode tokens (decode failure →
`Http`), `set_tokens`, return `Ok`; 400 → decode the error body (failure →
`Http`), return the `error_for_status_ref` error wrapped as `Http` unless
the error code is exactly `AUTH_PENDING_MESSAGE`, in which case sleep
`interval` and continue; any other status → `error_for_status()?`
propagates `Http` for a 4xx/5xx status, else return
`UnexpectedStatus(status, url)`. -/
def wait_for_tokens_loop (st : Client) (params : List (String × String))
    (must_complete_by interval : Nat) :
    Nat → List TokenResponse → PollOutcome × List PollEvent
  | now, responses =>
    if now < must_complete_by then
      match responses with
      | [] => (.noResponse st, [])
      | r :: rest =>
        if r.status = 200 then
          match r.tokens with
          | none => (.err (.Http .decode) st, [.request params])
          | some toks =>
            match set_tokens st now toks with
            | none => (.panicked st, [.request params])
            | some st' => (.ok st', [.request params])
        else if r.status = 400 then
          match r.errorBody with
          | none => (.err (.Http .decode) st, [.request params])
          | some failure =>
            if failure.error ≠ AUTH_PENDING_MESSAGE then
              (.err (.Http (.status 400 r.url)) st, [.request params])
            else
              let next :=
                wait_for_tokens_loop st params must_complete_by interval (now + interval) rest
              (next.1, .request params :: .sleep interval :: next.2)
        else if is_error_status r.status then
          (.err (.Http (.status r.status r.url)) st, [.request params])
        else
          (.err (.UnexpectedStatus r.status r.url) st, [.request params])
    else
      (.err .Timeout st, [])

/-- src/tado/client.rs lines 343-384: `Client::wait_for_tokens`.
`must_complete_by = Instant::now() + Duration::from_secs(start.expires_in)`
with `now` the session-start instant. -/
def wait_for_tokens (st : Client) (start : AuthStartResponse) (now : Nat)
    (responses : List TokenResponse) : PollOutcome × List PollEvent :=
  wait_for_tokens_loop st (token_params st start) (now + start.expires_in)
    start.interval now responses

/-- src/tado/client.rs lines 245-249: the form parameters of the refresh
request. -/
def refresh_params (st : Client) : List (String × String) :=
  [("client_id", st.client_id),
   ("grant_type", "refresh_token"),
   ("refresh_token", st.tokens.refresh_token)]

/-- src/tado/client.rs lines 240-261: `Client::refresh_authentication`.
If `now` is still strictly before `tokens_refresh_by`, return `Ok` with no
request.  Otherwise POST the refresh parameters (`sendResult = none`
models a transport failure of `send()`, surfaced by `?` as `Http`), decode
the body as `AuthTokensResponse` (no status check in the source; decode
failure is surfaced by `?` as `Http`), and store the new pair through
`set_tokens`. -/
def refresh_authentication (st : Client) (now : Nat) (sendResult : Option TokenResponse) :
    PollOutcome × List PollEvent :=
  if now < st.tokens_refresh_by then
    (.ok st, [])
  else
    match sendResult with
    | none => (.err (.Http .transport) st, [.request (refresh_params st)])
    | some resp =>
      match resp.tokens with
      | none => (.err (.Http .decode) st, [.request (refresh_params st)])
      | some toks =>
        match set_tokens st now toks with
        | none => (.panicked st, [.request (refresh_params st)])
        | some st' => (.ok st', [.request (refresh_params st)])

/-- The `Location` header of the device-session response, as far as the
code can observe it through the external http/url libraries:
`invalid` — the header value fails `to_str()` (→ `HttpHeader`);
`unparseable` — after prefixing the login origin, `Url::parse` fails
(→ `UrlParse`); `parsed` — the parse succeeds and `query_pairs()` yields
the given key/value list, in order. -/
inductive LocationHeader where
  | invalid
  | unparseable (value : String)
  | parsed (query : List (String × String))
deriving Repr, DecidableEq

/-- The device-session POST response as observed by `approve_device`:
status, response URL, and the optional `Location` header. -/
structure DeviceResponse where
  status : Nat
  url : String
  location : Option LocationHeader
deriving Repr, DecidableEq

/-- The consent POST response as observed by `approve_device`: status,
response URL, and whether reading the body with `text()` succeeds. -/
structure ConsentResponse where
  status : Nat
  url : String
  text_ok : Bool
deriving Repr, DecidableEq

/-- `query_pairs().collect::<HashMap<_, _>>()` followed by `get`: the
HashMap is built by inserting the pairs in order, so for a duplicated key
the last pair wins. -/
def qget (query : List (String × String)) (key : String) : Option String :=
  (query.reverse.find? fun kv => kv.1 == key).map fun kv => kv.2

/-- Rust's `Option::ok_or` on the modelled query lookups. -/
def ok_or {α : Type} (o : Option α) (e : AuthError) : Except AuthError α :=
  match o with
  | some a => .ok a
  | none => .error e

/-- The six query parameters extracted from the redirect `Location`. -/
structure RedirectParams where
  code_challenge : String
  code_challenge_method : String
  redirect_uri : String
  response_type : String
  state : String
  tenant_id : String
deriving Repr, DecidableEq

/-- src/tado/client.rs lines 102-120: extraction of the six required
query parameters, each with `ok_or(AuthError::MissingParam(..))?`, in
source order. -/
def extract_redirect_params (query : List (String × String)) :
    Except AuthError RedirectParams := do
  let code_challenge ← ok_or (qget query "code_challenge") (.MissingParam "code_challenge")
  let code_challenge_method ←
    ok_or (qget query "code_challenge_method") (.MissingParam "code_challenge_method")
  let redirect_uri ← ok_or (qget query "redirect_uri") (.MissingParam "redirect_uri")
  let response_type ← ok_or (qget query "response_type") (.MissingParam "response_type")
  let state ← ok_or (qget query "state") (.MissingParam "state")
  let tenant_id ← ok_or (qget query "tenantId") (.MissingParam "tenantId")
  pure { code_challenge := code_challenge
         code_challenge_method := code_challenge_method
         redirect_uri := redirect_uri
         response_type := response_type
         state := state
         tenant_id := tenant_id }

/-- The check order of the six required parameters (source order of
lines 103-120). -/
def required_params : List String :=
  ["code_challenge", "code_challenge_method", "redirect_uri",
   "response_type", "state", "tenantId"]

/-- src/tado/client.rs lines 77-82: form parameters of the device-session
POST. -/
def device_params (st : Client) (start : AuthStartResponse) : List (String × String) :=
  [("client_id", st.client_id),
   ("tenantId", "1d543ad5-a8ac-4704-b9e2-26838b4d6513"),
   ("user_code", start.user_code),
   ("interactive_user_code", start.user_code)]

/-- src/tado/client.rs lines 123-146: form parameters of the consent
POST. -/
def authorise_params (st : Client) (start : AuthStartResponse) (p : RedirectParams) :
    List (String × String) :=
  [("client_id", st.client_id),
   ("code_challenge", p.code_challenge),
   ("code_challenge_method", p.code_challenge_method),
   ("redirect_uri", p.redirect_uri),
   ("response_type", p.response_type),
   ("state", p.state),
   ("tenantId", p.tenant_id),
   ("user_code", start.user_code),
   ("loginId", st.username),
   ("password", st.password),
   ("captcha_token", ""),
   ("metaData.device.name", ""),
   ("metaData.device.type", ""),
   ("nonce", ""),
   ("oauth_context", ""),
   ("pendingIdPLinkId", ""),
   ("response_mode", ""),
   ("scope", ""),
   ("timezone", ""),
   ("userVerifyingPlatformAuthenticatorAvailable", "false")]

/-- One observable POST of `approve_device`, with its form parameters. -/
inductive ApproveEvent where
  | device_post (params : List (String × String))
  | consent_post (params : List (String × String))
deriving Repr, DecidableEq

/-- src/tado/client.rs lines 71-165: `Client::approve_device` (the
redirect-less builder on line 72-74 is assumed to construct, which never
fails in practice).  `deviceResp = none` models a transport failure of the
device-session POST.  If the response has no `Location` header, fail with
`UnexpectedStatus(status, url)` before any consent POST.  Otherwise decode
the header (`to_str()?` → `HttpHeader`), resolve and parse the URL
(`Url::parse(..)?` → `UrlParse`), extract the six required query
parameters, then POST the consent form (`consentResp = none` models its
transport failure), check `error_for_status_ref()?` and read the body with
`text()?`. -/
def approve_device (st : Client) (start : AuthStartResponse)
    (deviceResp : Option DeviceResponse) (consentResp : Option ConsentResponse) :
    Except AuthError Unit × List ApproveEvent :=
  match deviceResp with
  | none => (.error (.Http .transport), [.device_post (device_params st start)])
  | some resp =>
    match resp.location with
    | none =>
      (.error (.UnexpectedStatus resp.status resp.url),
       [.device_post (device_params st start)])
    | some .invalid =>
      (.error .HttpHeader, [.device_post (device_params st start)])
    | some (.unparseable _) =>
      (.error .UrlParse, [.device_post (device_params st start)])
    | some (.parsed query) =>
      match extract_redirect_params query with
      | .error e => (.error e, [.device_post (device_params st start)])
      | .ok p =>
        let evs := [ApproveEvent.device_post (device_params st start),
                    ApproveEvent.consent_post (authorise_params st start p)]
        match consentResp with
        | none => (.error (.Http .transport), evs)
        | some c =>
          if is_error_status c.status then
            (.error (.Http (.status c.status c.url)), evs)
          else if c.text_ok then
            (.ok (), evs)
          else
            (.error (.Http .decode), evs)

/-- A response is "pending" when it is a 400 whose decoded error body
carries exactly the `AUTH_PENDING_MESSAGE` code. -/
def isPending (r : TokenResponse) : Prop :=
  r.status = 400 ∧ r.errorBody = some { error := AUTH_PENDING_MESSAGE }

instance (r : TokenResponse) : Decidable (isPending r) := by
  unfold isPending
  infer_instance

/-- Trace of `n` pending iterations: each issues one request and then
sleeps exactly `interval`. -/
def pendingTrace (params : List (String × String)) (interval : Nat) : Nat → List PollEvent
  | 0 => []
  | n + 1 => .request params :: .sleep interval :: pendingTrace params interval n

/-! ### Concrete fixtures used by witnesses and counterexamples -/

/-- A freshly constructed client. -/
def cFix : Client := with_base_url "https://base/" "user" "pass" "cid" 0

/-- A device grant session with a 300 s window and 5 s interval. -/
def sFix : AuthStartResponse :=
  { device_code := "dev", user_code := "uc", verification_uri_complete := "vuri",
    expires_in := 300, interval := 5 }

/-- A 400 response with the pending error code. -/
def tokPend : TokenResponse :=
  { status := 400, url := "turl", tokens := none,
    errorBody := some { error := "authorization_pending" } }

/-- A 400 response with a non-pending error code. -/
def tokFatal : TokenResponse :=
  { status := 400, url := "turl", tokens := none,
    errorBody := some { error := "access_denied" } }

/-- A valid token pair with a 600 s lifetime. -/
def tok600 : AuthTokensResponse :=
  { access_token := "A", expires_in := 600, refresh_token := "R2" }

/-- A 200 response carrying `tok600`. -/
def tokOk : TokenResponse :=
  { status := 200, url := "turl", tokens := some tok600, errorBody := none }

/-- A 500 response. -/
def tokServerErr : TokenResponse :=
  { status := 500, url := "turl", tokens := none, errorBody := none }

/-- A client already holding a refresh token, with deadline at 50 s. -/
def cRefresh : Client :=
  { cFix with
      tokens := { access_token := "old", expires_in := 0, refresh_token := "R" }
      tokens_refresh_by := 50 }

/-! ### Helper lemmas about one iteration of the polling loop -/

/-- Once the deadline is reached the loop exits with `Timeout` before
issuing any request. -/
theorem loop_expired (st : Client) (params : List (String × String))
    (deadline interval now : Nat) (responses : List TokenResponse)
    (h : deadline ≤ now) :
    wait_for_tokens_loop st params deadline interval now responses =
      (.err .Timeout st, []) := by
  unfold wait_for_tokens_loop
  rw [if_neg (by omega)]

/-- Before the deadline, an exhausted response script ends the modelled
run with `noResponse`. -/
theorem loop_nil (st : Client) (params : List (String × String))
    (deadline interval now : Nat) (h : now < deadline) :
    wait_for_tokens_loop st params deadline interval now [] =
      (.noResponse st, []) := by
  unfold wait_for_tokens_loop
  rw [if_pos h]

/-- A pending 400 leaves the loop running: the run is the request, the
`interval` sleep, then the run on the remaining script with the clock
advanced by `interval`. -/
theorem loop_pending_step (st : Client) (params : List (String × String))
    (deadline interval now : Nat) (r : TokenResponse) (rest : List TokenResponse)
    (hnow : now < deadline) (h400 : r.status = 400)
    (hbody : r.errorBody = some { error := AUTH_PENDING_MESSAGE }) :
    wait_for_tokens_loop st params deadline interval now (r :: rest) =
      ((wait_for_tokens_loop st params deadline interval (now + interval) rest).1,
        .request params :: .sleep interval ::
          (wait_for_tokens_loop st params deadline interval (now + interval) rest).2) := by
  conv_lhs => unfold wait_for_tokens_loop
  rw [if_pos hnow]
  simp only [h400, hbody]
  norm_num

/-- A 400 whose error body is decoded but is not the pending code makes
the loop return the wrapped `error_for_status_ref` error at once. -/
theorem loop_fatal400_step (st : Client) (params : List (String × String))
    (deadline interval now : Nat) (r : TokenResponse) (rest : List TokenResponse)
    (failure : AuthTokensErrorResponse)
    (hnow : now < deadline) (h400 : r.status = 400)
    (hbody : r.errorBody = some failure) (hne : failure.error ≠ AUTH_PENDING_MESSAGE) :
    wait_for_tokens_loop st params deadline interval now (r :: rest) =
      (.err (.Http (.status 400 r.url)) st, [.request params]) := by
  conv_lhs => unfold wait_for_tokens_loop
  rw [if_pos hnow]
  simp only [h400, hbody]
  norm_num [hne]

/-- A 200 whose body decodes and whose pair is accepted by `set_tokens`
ends the loop successfully with no further event. -/
theorem loop_success_step (st st' : Client) (params : List (String × String))
    (deadline interval now : Nat) (r : TokenResponse) (rest : List TokenResponse)
    (toks : AuthTokensResponse)
    (hnow : now < deadline) (h200 : r.status = 200) (htoks : r.tokens = some toks)
    (hset : set_tokens st now toks = some st') :
    wait_for_tokens_loop st params deadline interval now (r :: rest) =
      (.ok st', [.request params]) := by
  conv_lhs => unfold wait_for_tokens_loop
  rw [if_pos hnow]
  simp only [h200, htoks, hset]
  norm_num

/-- A status other than 200 and 400 ends the loop at once: `Http` (from
`error_for_status()?`) for 4xx/5xx statuses, `UnexpectedStatus` for the
rest. -/
theorem loop_other_status_step (st : Client) (params : List (String × String))
    (deadline interval now : Nat) (r : TokenResponse) (rest : List TokenResponse)
    (hnow : now < deadline) (h200 : r.status ≠ 200) (h400 : r.status ≠ 400) :
    wait_for_tokens_loop st params deadline interval now (r :: rest) =
      ((if is_error_status r.status then
          PollOutcome.err (.Http (.status r.status r.url)) st
        else
          PollOutcome.err (.UnexpectedStatus r.status r.url) st),
        [.request params]) := by
  conv_lhs => unfold wait_for_tokens_loop
  rw [if_pos hnow]
  simp only [h200, h400]
  norm_num
  split
  · rfl
  · rfl

/-! ### Claims -/

/-- C1: In every poll iteration of `wait_for_tokens`, an HTTP 400 whose
parsed error body has error code exactly "authorization_pending" keeps the
poller in the polling loop (the run continues on the rest of the script
after the sleep), while an HTTP 400 with any other error code makes the
poller return immediately with the wrapped HTTP error (`AuthError::Http`)
and issue no further token request. -/
theorem c1_poll_400_pending_vs_fatal (st : Client) (params : List (String × String))
    (deadline interval now : Nat) (r : TokenResponse) (rest : List TokenResponse)
    (hnow : now < deadline) (h400 : r.status = 400) :
    (r.errorBody = some { error := AUTH_PENDING_MESSAGE } →
      wait_for_tokens_loop st params deadline interval now (r :: rest) =
        ((wait_for_tokens_loop st params deadline interval (now + interval) rest).1,
          .request params :: .sleep interval ::
            (wait_for_tokens_loop st params deadline interval (now + interval) rest).2))
    ∧ (∀ failure, r.errorBody = some failure → failure.error ≠ AUTH_PENDING_MESSAGE →
        wait_for_tokens_loop st params deadline interval now (r :: rest) =
          (.err (.Http (.status 400 r.url)) st, [.request params])) := by
  constructor
  · intro hbody
    exact loop_pending_step st params deadline interval now r rest hnow h400 hbody
  · intro failure hbody hne
    exact loop_fatal400_step st params deadline interval now r rest failure hnow h400 hbody hne

/-- Witness for C1 at a concrete input: in the window, a pending 400
continues into the rest of the script (here ending in `noResponse`), and a
400 with error code "access_denied" stops with `Http` after exactly one
request. -/
theorem c1_poll_400_pending_vs_fatal_witness :
    wait_for_tokens_loop cFix [] 300 5 0 [tokPend] =
      ((wait_for_tokens_loop cFix [] 300 5 5 []).1,
        .request [] :: .sleep 5 :: (wait_for_tokens_loop cFix [] 300 5 5 []).2)
    ∧ wait_for_tokens_loop cFix [] 300 5 0 [tokFatal] =
        (.err (.Http (.status 400 "turl")) cFix, [.request []]) := by
  constructor
  · exact (c1_poll_400_pending_vs_fatal cFix [] 300 5 0 tokPend [] (by decide) (by decide)).1
      (by decide)
  · exact (c1_poll_400_pending_vs_fatal cFix [] 300 5 0 tokFatal [] (by decide) (by decide)).2
      { error := "access_denied" } (by decide) (by decide)

/-- C2 counterexample: a 500 response inside the window makes the poller
return the wrapped HTTP error (`Http`, from `error_for_status()?`), not
`UnexpectedStatus(500, url)` as the claim states. -/
theorem c2_counterexample_500 :
    (wait_for_tokens cFix sFix 0 [tokServerErr]).1 =
        .err (.Http (.status 500 "turl")) cFix
    ∧ (wait_for_tokens cFix sFix 0 [tokServerErr]).1 ≠
        .err (.UnexpectedStatus 500 "turl") cFix := by
  constructor
  · decide
  · decide

/-- C2 (amended): in every poll iteration, a response whose status is
neither 200 nor 400 makes the poller return immediately after that single
request; if the status is a client/server error status (400-599) the error
is the wrapped HTTP error `Http(status, url)` (via `error_for_status()?`),
otherwise it is `UnexpectedStatus(status, url)`. -/
theorem c2_poll_other_status (st : Client) (params : List (String × String))
    (deadline interval now : Nat) (r : TokenResponse) (rest : List TokenResponse)
    (hnow : now < deadline) (h200 : r.status ≠ 200) (h400 : r.status ≠ 400) :
    wait_for_tokens_loop st params deadline interval now (r :: rest) =
      ((if is_error_status r.status then
          PollOutcome.err (.Http (.status r.status r.url)) st
        else
          PollOutcome.err (.UnexpectedStatus r.status r.url) st),
        [.request params]) :=
  loop_other_status_step st params deadline interval now r rest hnow h200 h400

/-- Witness for C2 (amended) at concrete inputs: a 500 yields `Http`, a
302 yields `UnexpectedStatus`. -/
theorem c2_poll_other_status_witness :
    wait_for_tokens_loop cFix [] 300 5 0 [tokServerErr] =
      (.err (.Http (.status 500 "turl")) cFix, [.request []])
    ∧ wait_for_tokens_loop cFix [] 300 5 0
        [{ status := 302, url := "turl", tokens := none, errorBody := none }] =
      (.err (.UnexpectedStatus 302 "turl") cFix, [.request []]) := by
  constructor
  · have h := c2_poll_other_status cFix [] 300 5 0 tokServerErr []
      (by decide) (by decide) (by decide)
    rw [h]
    decide
  · have h := c2_poll_other_status cFix [] 300 5 0
      { status := 302, url := "turl", tokens := none, errorBody := none } []
      (by decide) (by decide) (by decide)
    rw [h]
    decide

/-- C5 counterexample: for a token pair with `expires_in = 5` (< 10),
`set_tokens` does not store the pair with deadline `now + (5 - 10)`: the
`u64` subtraction `tokens.expires_in - 10` underflows and the computation
panics (modelled `none`), so no state at all is produced. -/
theorem c5_counterexample_underflow :
    set_tokens cFix 0 { access_token := "a", expires_in := 5, refresh_token := "r" } =
      none := by
  decide

/-- C5 (amended): for every token pair with `expires_in = N ≥ 10`,
`set_tokens` stores that pair and sets the refresh deadline to exactly
`now + (N - 10)` seconds (10 s fixed safety margin); the deadline is
recomputed this way on every call. -/
theorem c5_set_tokens_deadline (st : Client) (now : Nat) (toks : AuthTokensResponse)
    (h : 10 ≤ toks.expires_in) :
    set_tokens st now toks =
      some { st with tokens := toks,
                     tokens_refresh_by := now + (toks.expires_in - 10) } := by
  unfold set_tokens
  rw [if_neg (by omega)]

/-- Witness for C5 (amended): storing a 600 s pair at `now = 100` yields
deadline 690. -/
theorem c5_set_tokens_deadline_witness :
    set_tokens cFix 100 tok600 =
      some { cFix with tokens := tok600, tokens_refresh_by := 690 } := by
  have h := c5_set_tokens_deadline cFix 100 tok600 (by decide)
  rw [h]
  decide

/-- C10: `set_tokens` is well-defined exactly under `expires_in ≥ 10`:
the `u64` subtraction `tokens.expires_in - 10` underflows, and the
deadline computation panics (modelled `none`), if and only if
`expires_in < 10`. -/
theorem c10_set_tokens_margin (st : Client) (now : Nat) (toks : AuthTokensResponse) :
    set_tokens st now toks = none ↔ toks.expires_in < 10 := by
  unfold set_tokens
  split
  · simp_all
  · simp_all

/-- Witness for C10: a pair with `expires_in = 3` makes `set_tokens`
panic (modelled `none`). -/
theorem c10_set_tokens_margin_witness :
    set_tokens cFix 0 { access_token := "", expires_in := 3, refresh_token := "" } =
      none :=
  (c10_set_tokens_margin cFix 0
    { access_token := "", expires_in := 3, refresh_token := "" }).mpr (by decide)

/-- C4: `refresh_authentication` is a no-op returning success with no
HTTP request while `now` is strictly before the stored deadline; at or
after the deadline it issues exactly one POST carrying the stored
`refresh_token` and the `refresh_token` grant type, and then: a transport
failure or a body-decode failure propagates as `Http`, and a decoded
`TokenPair` is stored through `set_tokens`. -/
theorem c4_refresh_if_needed (st : Client) (now : Nat) (sendResult : Option TokenResponse) :
    (now < st.tokens_refresh_by →
      refresh_authentication st now sendResult = (.ok st, []))
    ∧ (st.tokens_refresh_by ≤ now →
        (refresh_authentication st now sendResult).2 = [.request (refresh_params st)]
        ∧ (sendResult = none →
            (refresh_authentication st now sendResult).1 = .err (.Http .transport) st)
        ∧ (∀ resp, sendResult = some resp → resp.tokens = none →
            (refresh_authentication st now sendResult).1 = .err (.Http .decode) st)
        ∧ (∀ resp toks st', sendResult = some resp → resp.tokens = some toks →
            set_tokens st now toks = some st' →
            (refresh_authentication st now sendResult).1 = .ok st')) := by
  constructor
  · intro h
    unfold refresh_authentication
    rw [if_pos h]
  · intro h
    unfold refresh_authentication
    rw [if_neg (by omega)]
    refine ⟨?_, ?_, ?_, ?_⟩
    · cases sendResult with
      | none => rfl
      | some resp =>
        cases hres : resp.tokens with
        | none => simp [hres]
        | some toks =>
          cases hset : set_tokens st now toks with
          | none => simp [hres, hset]
          | some st' => simp [hres, hset]
    · intro hs
      subst hs
      rfl
    · intro resp hs hres
      subst hs
      simp [hres]
    · intro resp toks st' hs hres hset
      subst hs
      simp [hres, hset]

/-- Witness for C4: with deadline 50, a call at `now = 10` is a no-op
with no request, and a call at `now = 60` with a decodable token body
performs the refresh POST and stores the new pair with deadline 650. -/
theorem c4_refresh_if_needed_witness :
    refresh_authentication cRefresh 10 (some tokOk) = (.ok cRefresh, [])
    ∧ (refresh_authentication cRefresh 60 (some tokOk)).2 =
        [.request [("client_id", "cid"), ("grant_type", "refresh_token"),
                   ("refresh_token", "R")]]
    ∧ (refresh_authentication cRefresh 60 (some tokOk)).1 =
        .ok { cRefresh with tokens := tok600, tokens_refresh_by := 650 } := by
  refine ⟨?_, ?_, ?_⟩
  · exact (c4_refresh_if_needed cRefresh 10 (some tokOk)).1 (by decide)
  · have h := ((c4_refresh_if_needed cRefresh 60 (some tokOk)).2 (by decide)).1
    rw [h]
    decide
  · exact ((c4_refresh_if_needed cRefresh 60 (some tokOk)).2 (by decide)).2.2.2
      tokOk tok600 { cRefresh with tokens := tok600, tokens_refresh_by := 650 }
      rfl rfl (by decide)

/-- C3: if every token-endpoint response is a pending 400, the poller can
only end in `Timeout` (or exhaust the finite response script); the expiry
deadline is checked before each token request, so the k-th request is
issued at clock `now + interval * k`, strictly before the deadline — in
particular no request is ever issued at or after the deadline — and once
the clock passes the deadline (which happens by the time the script is
exhausted whenever `deadline ≤ now + interval * length`) the result is
exactly `Timeout`. -/
theorem c3_poll_all_pending_timeout (st : Client) (params : List (String × String))
    (deadline interval : Nat) (responses : List TokenResponse) (now : Nat)
    (hp : ∀ r ∈ responses, isPending r) :
    ((wait_for_tokens_loop st params deadline interval now responses).1 = .err .Timeout st
      ∨ (wait_for_tokens_loop st params deadline interval now responses).1 = .noResponse st)
    ∧ (∀ k, k < requestCount (wait_for_tokens_loop st params deadline interval now responses).2 →
        now + interval * k < deadline)
    ∧ (deadline ≤ now + interval * responses.length →
        (wait_for_tokens_loop st params deadline interval now responses).1 =
          .err .Timeout st) := by
  induction responses generalizing now with
  | nil =>
    by_cases h : now < deadline
    · rw [loop_nil st params deadline interval now h]
      refine ⟨Or.inr rfl, ?_, ?_⟩
      · intro k hk
        simp [requestCount] at hk
      · intro hd
        simp at hd
        omega
    · rw [loop_expired st params deadline interval now [] (by omega)]
      refine ⟨Or.inl rfl, ?_, fun _ => rfl⟩
      intro k hk
      simp [requestCount] at hk
  | cons r rest ih =>
    obtain ⟨hr400, hrbody⟩ := hp r (List.mem_cons_self r rest)
    have hrest : ∀ x ∈ rest, isPending x := fun x hx => hp x (List.mem_cons_of_mem _ hx)
    by_cases h : now < deadline
    · rw [loop_pending_step st params deadline interval now r rest h hr400 hrbody]
      obtain ⟨ih1, ih2, ih3⟩ := ih (now + interval) hrest
      refine ⟨ih1, ?_, ?_⟩
      · intro k hk
        simp only [requestCount, List.countP_cons] at hk
        cases k with
        | zero => simpa using h
        | succ k =>
          have hk' : k < requestCount
              (wait_for_tokens_loop st params deadline interval (now + interval) rest).2 := by
            simp [requestCount] at hk ⊢
            omega
          have := ih2 k hk'
          rw [Nat.mul_succ]
          omega
      · intro hd
        apply ih3
        simp only [List.length_cons, Nat.mul_succ] at hd ⊢
        omega
    · rw [loop_expired st params deadline interval now (r :: rest) (by omega)]
      refine ⟨Or.inl rfl, ?_, fun _ => rfl⟩
      intro k hk
      simp [requestCount] at hk

/-- Witness for C3: deadline 10, interval 5, two pending responses: two
requests are issued at clocks 0 and 5 (both before the deadline) and the
run ends in `Timeout` once the clock reaches 10. -/
theorem c3_poll_all_pending_timeout_witness :
    (wait_for_tokens_loop cFix [] 10 5 0 [tokPend, tokPend]).1 = .err .Timeout cFix := by
  exact (c3_poll_all_pending_timeout cFix [] 10 5 [tokPend, tokPend] 0
    (by decide)).2.2 (by decide)

/-- C8: for a script of pending 400s followed by a 200 with a valid token
body (all requests falling inside the expiry window), the poller succeeds
with exactly that token body stored; between each pending response and
the next request it sleeps exactly the session's reported `interval`
(trace `request, sleep interval` per pending response), and no sleep
follows the successful 200 (the trace ends with its request). -/
theorem c8_poll_pending_then_success (st : Client) (params : List (String × String))
    (deadline interval : Nat) (pendings : List TokenResponse) (r : TokenResponse)
    (toks : AuthTokensResponse) (now : Nat)
    (hp : ∀ p ∈ pendings, isPending p)
    (hr200 : r.status = 200) (htoks : r.tokens = some toks)
    (hexp : 10 ≤ toks.expires_in)
    (htime : now + interval * pendings.length < deadline) :
    wait_for_tokens_loop st params deadline interval now (pendings ++ [r]) =
      (.ok { st with
              tokens := toks
              tokens_refresh_by := now + interval * pendings.length + (toks.expires_in - 10) },
        pendingTrace params interval pendings.length ++ [.request params]) := by
  induction pendings generalizing now with
  | nil =>
    have hnow : now < deadline := by simpa using htime
    have hset : set_tokens st now toks =
        some { st with tokens := toks, tokens_refresh_by := now + (toks.expires_in - 10) } := by
      unfold set_tokens
      rw [if_neg (by omega)]
    rw [List.nil_append,
      loop_success_step st _ params deadline interval now r [] toks hnow hr200 htoks hset]
    simp [pendingTrace]
  | cons p ps ih =>
    obtain ⟨hp400, hpbody⟩ := hp p (List.mem_cons_self p ps)
    have hps : ∀ x ∈ ps, isPending x := fun x hx => hp x (List.mem_cons_of_mem _ hx)
    have hnow : now < deadline := by
      have : (0:Nat) ≤ interval * (ps.length + 1) := Nat.zero_le _
      simp only [List.length_cons] at htime
      omega
    have htime' : now + interval + interval * ps.length < deadline := by
      simp only [List.length_cons, Nat.mul_succ] at htime
      omega
    rw [List.cons_append,
      loop_pending_step st params deadline interval now p (ps ++ [r]) hnow hp400 hpbody,
      ih (now + interval) hps (by omega)]
    simp only [pendingTrace, List.length_cons, Nat.mul_succ]
    have harith : now + interval + interval * ps.length =
        now + (interval * ps.length + interval) := by omega
    rw [harith]
    rfl

/-- Witness for C8: two pending responses then a 200 carrying `tok600`,
starting at clock 0 with interval 5 and deadline 300: the poller stores
`tok600` with deadline `10 + 590 = 600` and the trace is request, sleep 5,
request, sleep 5, request. -/
theorem c8_poll_pending_then_success_witness :
    wait_for_tokens_loop cFix [] 300 5 0 [tokPend, tokPend, tokOk] =
      (.ok { cFix with tokens := tok600, tokens_refresh_by := 600 },
        [.request [], .sleep 5, .request [], .sleep 5, .request []]) := by
  have h := c8_poll_pending_then_success cFix [] 300 5 [tokPend, tokPend] tokOk tok600 0
    (by decide) (by decide) (by decide) (by decide) (by decide)
  rw [show [tokPend, tokPend, tokOk] = [tokPend, tokPend] ++ [tokOk] from rfl, h]
  decide

/-- C6: whenever the device-session response carries no `Location`
header, `approve_device` fails with `UnexpectedStatus(status, url)` built
from that response, and the trace shows no consent POST (only the
device-session POST). -/
theorem c6_approve_no_location (st : Client) (start : AuthStartResponse)
    (resp : DeviceResponse) (consentResp : Option ConsentResponse)
    (hloc : resp.location = none) :
    approve_device st start (some resp) consentResp =
      (.error (.UnexpectedStatus resp.status resp.url),
        [.device_post (device_params st start)]) := by
  simp [approve_device, hloc]

/-- Witness for C6: a 200 device-session response with no `Location`
yields `UnexpectedStatus(200, url)` and only the device POST. -/
theorem c6_approve_no_location_witness :
    approve_device cFix sFix
        (some { status := 200, url := "durl", location := none })
        (some { status := 200, url := "curl", text_ok := true }) =
      (.error (.UnexpectedStatus 200 "durl"),
        [.device_post (device_params cFix sFix)]) :=
  c6_approve_no_location cFix sFix
    { status := 200, url := "durl", location := none }
    (some { status := 200, url := "curl", text_ok := true }) rfl

/-- C7: when the redirect query lacks one or more of the six required
parameters, `approve_device` fails with `MissingParam` naming the first
missing parameter in the fixed check order `code_challenge`,
`code_challenge_method`, `redirect_uri`, `response_type`, `state`,
`tenantId`, and performs no consent POST. -/
theorem c7_approve_missing_param (st : Client) (start : AuthStartResponse)
    (consentResp : Option ConsentResponse) (resp : DeviceResponse)
    (query : List (String × String)) (name : String)
    (hloc : resp.location = some (.parsed query))
    (hfm : required_params.find? (fun k => (qget query k).isNone) = some name) :
    approve_device st start (some resp) consentResp =
      (.error (.MissingParam name), [.device_post (device_params st start)]) := by
  have hex : extract_redirect_params query = .error (.MissingParam name) := by
    unfold extract_redirect_params
    simp only [required_params, List.find?] at hfm
    cases h1 : qget query "code_challenge" with
    | none =>
      simp_all [ok_or]
      subst hfm
      rfl
    | some v1 =>
      cases h2 : qget query "code_challenge_method" with
      | none =>
        simp_all [ok_or]
        subst hfm
        rfl
      | some v2 =>
        cases h3 : qget query "redirect_uri" with
        | none =>
          simp_all [ok_or]
          subst hfm
          rfl
        | some v3 =>
          cases h4 : qget query "response_type" with
          | none =>
            simp_all [ok_or]
            subst hfm
            rfl
          | some v4 =>
            cases h5 : qget query "state" with
            | none =>
              simp_all [ok_or]
              subst hfm
              rfl
            | some v5 =>
              cases h6 : qget query "tenantId" with
              | none =>
                simp_all [ok_or]
                subst hfm
                rfl
              | some v6 => simp_all
  simp [approve_device, hloc, hex]

/-- Witness for C7 (the spec's example scenario): a query holding the
other five parameters but not `state` makes the check order pick `state`,
and `approve_device` fails with `MissingParam("state")` with no consent
POST. -/
theorem c7_approve_missing_param_witness :
    required_params.find?
        (fun k => (qget [("code_challenge", "x"), ("code_challenge_method", "S256"),
          ("redirect_uri", "ru"), ("response_type", "code"), ("tenantId", "t")] k).isNone) =
      some "state"
    ∧ approve_device cFix sFix
        (some { status := 302, url := "durl",
                location := some (.parsed [("code_challenge", "x"),
                  ("code_challenge_method", "S256"), ("redirect_uri", "ru"),
                  ("response_type", "code"), ("tenantId", "t")]) })
        (some { status := 200, url := "curl", text_ok := true }) =
      (.error (.MissingParam "state"), [.device_post (device_params cFix sFix)]) := by
  constructor
  · decide
  · exact c7_approve_missing_param cFix sFix
      (some { status := 200, url := "curl", text_ok := true })
      { status := 302, url := "durl",
        location := some (.parsed [("code_challenge", "x"),
          ("code_challenge_method", "S256"), ("redirect_uri", "ru"),
          ("response_type", "code"), ("tenantId", "t")]) }
      [("code_challenge", "x"), ("code_challenge_method", "S256"), ("redirect_uri", "ru"),
       ("response_type", "code"), ("tenantId", "t")] "state" rfl (by decide)

/-- In the polling loop the client state carried by an error outcome is
the original state, and the state carried by a success outcome is a
whole-value `set_tokens` replacement of the original state. -/
theorem loop_state_invariant (st : Client) (params : List (String × String))
    (deadline interval : Nat) :
    ∀ (responses : List TokenResponse) (now : Nat),
      (∀ e st', (wait_for_tokens_loop st params deadline interval now responses).1 =
          .err e st' → st' = st)
      ∧ (∀ st', (wait_for_tokens_loop st params deadline interval now responses).1 =
          .ok st' → ∃ t, set_tokens st t st'.tokens = some st') := by
  intro responses
  induction responses with
  | nil =>
    intro now
    by_cases hlt : now < deadline
    · rw [loop_nil st params deadline interval now hlt]
      constructor
      · intro e st' h
        simp at h
      · intro st' h
        simp at h
    · rw [loop_expired st params deadline interval now [] (by omega)]
      constructor
      · intro e st' h
        simp only [PollOutcome.err.injEq] at h
        exact h.2.symm
      · intro st' h
        simp at h
  | cons r rest ih =>
    intro now
    by_cases hlt : now < deadline
    · rcases r with ⟨rs, rurl, rtoks, rbody⟩
      by_cases h200 : rs = 200
      · subst h200
        cases rtoks with
        | none =>
          have heq : wait_for_tokens_loop st params deadline interval now
              ({ status := 200, url := rurl, tokens := none, errorBody := rbody } :: rest) =
              (.err (.Http .decode) st, [.request params]) := by
            conv_lhs => unfold wait_for_tokens_loop
            rw [if_pos hlt]
            norm_num
          rw [heq]
          constructor
          · intro e st' h
            simp only [PollOutcome.err.injEq] at h
            exact h.2.symm
          · intro st' h
            simp at h
        | some toks =>
          cases hset : set_tokens st now toks with
          | none =>
            have heq : wait_for_tokens_loop st params deadline interval now
                ({ status := 200, url := rurl, tokens := some toks, errorBody := rbody } :: rest) =
                (.panicked st, [.request params]) := by
              conv_lhs => unfold wait_for_tokens_loop
              rw [if_pos hlt]
              norm_num [hset]
            rw [heq]
            constructor
            · intro e st' h
              simp at h
            · intro st' h
              simp at h
          | some st2 =>
            rw [loop_success_step st st2 params deadline interval now
              { status := 200, url := rurl, tokens := some toks, errorBody := rbody } rest toks
              hlt rfl rfl hset]
            constructor
            · intro e st' h
              simp at h
            · intro st' h
              simp only [PollOutcome.ok.injEq] at h
              subst h
              refine ⟨now, ?_⟩
              have htok : st2.tokens = toks := by
                unfold set_tokens at hset
                split at hset
                · simp at hset
                · simp only [Option.some.injEq] at hset
                  subst hset
                  rfl
              rw [htok]
              exact hset
      · by_cases h400 : rs = 400
        · subst h400
          cases rbody with
          | none =>
            have heq : wait_for_tokens_loop st params deadline interval now
                ({ status := 400, url := rurl, tokens := rtoks, errorBody := none } :: rest) =
                (.err (.Http .decode) st, [.request params]) := by
              conv_lhs => unfold wait_for_tokens_loop
              rw [if_pos hlt]
              norm_num
            rw [heq]
            constructor
            · intro e st' h
              simp only [PollOutcome.err.injEq] at h
              exact h.2.symm
            · intro st' h
              simp at h
          | some failure =>
            rcases failure with ⟨ferr⟩
            by_cases hpend : ferr = AUTH_PENDING_MESSAGE
            · subst hpend
              rw [loop_pending_step st params deadline interval now
                { status := 400, url := rurl, tokens := rtoks,
                  errorBody := some { error := AUTH_PENDING_MESSAGE } } rest hlt rfl rfl]
              exact ih (now + interval)
            · rw [loop_fatal400_step st params deadline interval now
                { status := 400, url := rurl, tokens := rtoks,
                  errorBody := some { error := ferr } } rest { error := ferr }
                hlt rfl rfl hpend]
              constructor
              · intro e st' h
                simp only [PollOutcome.err.injEq] at h
                exact h.2.symm
              · intro st' h
                simp at h
        · rw [loop_other_status_step st params deadline interval now
            { status := rs, url := rurl, tokens := rtoks, errorBody := rbody } rest
            hlt h200 h400]
          constructor
          · intro e st' h
            split at h
            · simp only [PollOutcome.err.injEq] at h
              exact h.2.symm
            · simp only [PollOutcome.err.injEq] at h
              exact h.2.symm
          · intro st' h
            split at h
            · simp at h
            · simp at h
    · rw [loop_expired st params deadline interval now (r :: rest) (by omega)]
      constructor
      · intro e st' h
        simp only [PollOutcome.err.injEq] at h
        exact h.2.symm
      · intro st' h
        simp at h

/-- C9: the client's token state is mutated only by `set_tokens`, always
as a whole-value replacement: whenever `wait_for_tokens` (any loop run)
or `refresh_authentication` returns an error, the carried state — token
pair and refresh deadline — is exactly the prior one, and whenever either
returns success the resulting state either is the unchanged prior one
(refresh before the deadline) or is exactly a `set_tokens` replacement:
one token pair with its matching recomputed deadline. -/
theorem c9_token_state_whole_replacement :
    (∀ (st : Client) (params : List (String × String)) (deadline interval now : Nat)
        (responses : List TokenResponse) (e : AuthError) (st' : Client),
      (wait_for_tokens_loop st params deadline interval now responses).1 = .err e st' →
        st' = st)
    ∧ (∀ (st : Client) (params : List (String × String)) (deadline interval now : Nat)
        (responses : List TokenResponse) (st' : Client),
      (wait_for_tokens_loop st params deadline interval now responses).1 = .ok st' →
        ∃ t, set_tokens st t st'.tokens = some st')
    ∧ (∀ (st : Client) (now : Nat) (sendResult : Option TokenResponse)
        (e : AuthError) (st' : Client),
      (refresh_authentication st now sendResult).1 = .err e st' → st' = st)
    ∧ (∀ (st : Client) (now : Nat) (sendResult : Option TokenResponse) (st' : Client),
      (refresh_authentication st now sendResult).1 = .ok st' →
        st' = st ∨ ∃ t, set_tokens st t st'.tokens = some st') := by
  refine ⟨?_, ?_, ?_, ?_⟩
  · intro st params deadline interval now responses e st' h
    exact (loop_state_invariant st params deadline interval responses now).1 e st' h
  · intro st params deadline interval now responses st' h
    exact (loop_state_invariant st params deadline interval responses now).2 st' h
  · intro st now sendResult e st' h
    unfold refresh_authentication at h
    by_cases hlt : now < st.tokens_refresh_by
    · rw [if_pos hlt] at h
      simp at h
    · rw [if_neg hlt] at h
      cases sendResult with
      | none =>
        simp only [PollOutcome.err.injEq] at h
        exact h.2.symm
      | some resp =>
        cases hres : resp.tokens with
        | none =>
          simp only [hres, PollOutcome.err.injEq] at h
          exact h.2.symm
        | some toks =>
          cases hset : set_tokens st now toks with
          | none =>
            simp [hres, hset] at h
          | some st2 =>
            simp [hres, hset] at h
  · intro st now sendResult st' h
    unfold refresh_authentication at h
    by_cases hlt : now < st.tokens_refresh_by
    · rw [if_pos hlt] at h
      simp only [PollOutcome.ok.injEq] at h
      exact Or.inl h.symm
    · rw [if_neg hlt] at h
      cases sendResult with
      | none => simp at h
      | some resp =>
        cases hres : resp.tokens with
        | none => simp [hres] at h
        | some toks =>
          cases hset : set_tokens st now toks with
          | none => simp [hres, hset] at h
          | some st2 =>
            simp only [hres, hset, PollOutcome.ok.injEq] at h
            subst h
            refine Or.inr ⟨now, ?_⟩
            have htok : st2.tokens = toks := by
              unfold set_tokens at hset
              split at hset
              · simp at hset
              · simp only [Option.some.injEq] at hset
                subst hset
                rfl
            rw [htok]
            exact hset

/-- Witness for C9 at concrete runs: a fatal-400 run hands back the
original client state, and a successful run stores a `set_tokens`
replacement. -/
theorem c9_token_state_whole_replacement_witness :
    cFix = cFix
    ∧ ∃ t, set_tokens cFix t
        ({ cFix with tokens := tok600, tokens_refresh_by := 590 } : Client).tokens =
        some { cFix with tokens := tok600, tokens_refresh_by := 590 } := by
  constructor
  · exact c9_token_state_whole_replacement.1 cFix [] 300 5 0 [tokFatal]
      (.Http (.status 400 "turl")) cFix (by decide)
  · exact c9_token_state_whole_replacement.2.1 cFix [] 300 5 0 [tokOk]
      { cFix with tokens := tok600, tokens_refresh_by := 590 } (by decide)

end Tado
